import Mathlib

/-!
Shallow embedding of the DAP transport engine in `src/transport.c`
(functions `dc_q_clear`, `dc_decode_status`, `dc_q_exec`, `dc_q_raw_rd`,
`dc_q_raw_wr`, `dc_q_dp_sel`, `dc_q_ap_sel`, the public `dc_q_*` queue
operations, `dap_xfer_config`, `dap_configure`, `dc_create`, `attach_cmd`
and `dc_attach`), together with theorems checking the specification's
claims about it.

The C headers `transport.h`, `arm-debug.h` and `cmsis-dap-protocol.h` are
not part of the sources; the protocol constants and error codes they
define are modelled from the specification (its §6 wire tables and §7
error taxonomy), as noted on each definition.

Machine integers are modelled as `Nat`.  The `uint32_t` budget counters
`txavail`/`rxavail` are decremented with an explicit wrap-around
subtraction `sub32`, because the C code can drive them below zero (see
the theorems about the request-count byte).  The one-byte request count
`txbuf[2]` is kept modulo 256.  USB input/output is abstracted by an
oracle (`UsbOutcome` for `DAP_Transfer` round trips, a `DCErr` result for
the single-command helpers); every byte string handed to `usb_write` is
recorded in an instrumentation field `wire` so that theorems can count
probe traffic.
-/

namespace XDebug

/-- Error taxonomy of the transport.  The numeric `DC_ERR_*` codes live in
`transport.h`, which is absent from the sources; the constructors follow
the spec's §7 error table.  `failed` stands for `DC_ERR_FAILED` and
`invalidArg` for the distinct `InvalidArg` kind. -/
inductive DCErr where
  | ok
  | ioErr
  | protocol
  | unsupported
  | remote
  | swdParity
  | swdFault
  | swdSilent
  | swdBogus
  | timeout
  | matchErr
  | invalidArg
  | offline
  | failed
  deriving DecidableEq, Repr

-- Modelled from the spec: CMSIS-DAP opcodes, §6 (header `cmsis-dap-protocol.h` absent).
def DAP_Info : Nat := 0x00

def DAP_Connect : Nat := 0x02

def DAP_TransferConfigure : Nat := 0x04

def DAP_Transfer : Nat := 0x05

def DAP_SWD_Configure : Nat := 0x13

def DAP_SWD_Sequence : Nat := 0x1D

-- Modelled from the spec: transfer request byte encoding, §6
-- (bit 0 = AP, bit 1 = RD, bits 2..3 = register, bit 4 = ValueMatch, bit 5 = MatchMask).
def XFER_DP : Nat := 0x00

def XFER_AP : Nat := 0x01

def XFER_WR : Nat := 0x00

def XFER_RD : Nat := 0x02

def XFER_ValueMatch : Nat := 0x10

def XFER_MatchMask : Nat := 0x20

-- Modelled from the spec: register `0x00` (`DP.IDR`) and `0x08` (`DP.SELECT`)
-- as placed in bits 2..3 of the request byte.
def XFER_00 : Nat := 0x00

def DP_SELECT : Nat := 0x08

-- Modelled from the spec: SWD status byte of a `DAP_Transfer` response, §4.G
-- (ACK in bits 0..2 with OK=1, WAIT=2, FAULT=4 as fixed by §8 scenario 5,
-- protocol error bit 3, value mismatch bit 4).
def RSP_ACK_MASK : Nat := 0x07

def RSP_ACK_OK : Nat := 0x01

def RSP_ACK_WAIT : Nat := 0x02

def RSP_ACK_FAULT : Nat := 0x04

def RSP_ProtocolError : Nat := 0x08

def RSP_ValueMismatch : Nat := 0x10

/-- The `INVALID` sentinel for the configuration mirrors (`transport.c`). -/
def INVALID : Nat := 0xFFFFFFFF

-- Modelled from the spec: flag and port constants (`transport.h` absent).
def DC_MULTIDROP : Nat := 1

def PORT_SWD : Nat := 1

def CFG_Turnaround_1 : Nat := 0

-- Modelled from the spec: `DP.SELECT` field constructors of `arm-debug.h`
-- (absent), per §4.F: DPBANK in bits 3:0, APBANK in bits 7:4, AP in bits 31:24.
def DP_SELECT_DPBANK (x : Nat) : Nat := x &&& 0xF

def DP_SELECT_APBANK (x : Nat) : Nat := (x &&& 0xF) <<< 4

def DP_SELECT_AP (x : Nat) : Nat := x &&& 0xFF000000

/-- Constant `2^32`, the modulus of the C `uint32_t` fields. -/
def W32 : Nat := 4294967296

/-- A 32-bit wrap-around subtraction, as C computes `a - b` on `uint32_t`
for `a < 2^32` and `b ≤ 2^32`. -/
def sub32 (a b : Nat) : Nat := (a + (W32 - b)) % W32

/-- The four little-endian bytes of a 32-bit value, as `memcpy` of a
`uint32_t` lays them out. -/
def le32 (v : Nat) : List Nat :=
  [v &&& 0xFF, (v >>> 8) &&& 0xFF, (v >>> 16) &&& 0xFF, (v >>> 24) &&& 0xFF]

/-- Outcome of the USB round trip performed by `dc_q_exec`:
`usb_write` fails short, `usb_read` returns negative, the response is
shorter than 3 bytes or does not echo `DAP_Transfer`, or a well-framed
response carrying the SWD status byte `rsp[2]`. -/
inductive UsbOutcome where
  | writeFail
  | readFail
  | badFrame
  | okResp (status : Nat)
  deriving DecidableEq, Repr

/-- State of `struct debug_context` (`transport.c`), restricted to the
fields the queue machinery reads or writes.  `txrecs` holds the request
records appended after the 3-byte header (so the C cursor `txnext`
equals `txbuf + 3 + (txrecs.map List.length).sum`), `count` is the byte
`txbuf[2]`, `rxlist` the response destinations `rxptr[0..]` (as abstract
slot ids), and `wire` records every byte string handed to `usb_write`. -/
structure DC where
  max_packet_count : Nat
  max_packet_size : Nat
  cfg_idle : Nat
  cfg_wait : Nat
  cfg_match : Nat
  cfg_mask : Nat
  dp_select : Nat
  dp_select_cache : Nat
  txrecs : List (List Nat)
  count : Nat
  rxlist : List Nat
  txavail : Nat
  rxavail : Nat
  qerror : DCErr
  wire : List (List Nat)
  deriving DecidableEq, Repr

/-- Bytes used in `txbuf` after the header. -/
def txused (dc : DC) : Nat := (dc.txrecs.map List.length).sum

/-- The C cursor offset `txnext - txbuf`. -/
def txnext (dc : DC) : Nat := 3 + txused dc

/-- The `DAP_Transfer` packet `txbuf[0..txnext]` as transmitted. -/
def txPacket (dc : DC) : List Nat :=
  DAP_Transfer :: 0 :: dc.count :: dc.txrecs.flatten

/-- Embeds `dc_q_clear` (`transport.c:163`). -/
def dc_q_clear (dc : DC) : DC :=
  { dc with
    txrecs := []
    rxlist := []
    txavail := dc.max_packet_size - 3
    rxavail := dc.max_packet_size - 3
    qerror := DCErr.ok
    dp_select_cache := INVALID
    cfg_mask := INVALID
    count := 0 }

/-- Embeds `dc_q_init` (`transport.c:177`). -/
def dc_q_init (dc : DC) : DC := dc_q_clear dc

/-- Embeds `dc_decode_status` (`transport.c:183`). -/
def dc_decode_status (n : Nat) : DCErr :=
  let ack := n &&& RSP_ACK_MASK
  if n &&& RSP_ProtocolError ≠ 0 then DCErr.swdParity
  else if ack = RSP_ACK_OK then
    if n &&& RSP_ValueMismatch ≠ 0 then DCErr.matchErr else DCErr.ok
  else if ack = RSP_ACK_WAIT then DCErr.timeout
  else if ack = RSP_ACK_FAULT then DCErr.swdFault
  else if ack = RSP_ACK_MASK then DCErr.swdSilent
  else DCErr.swdBogus

/-- Embeds `dc_q_exec` (`transport.c:212`).  Returns the updated context and the
result code.  Note that on USB write failure, USB read failure and
framing violation the C function returns before reaching its final
`dc_q_clear`; the packet is recorded on `wire` whenever `usb_write` is
reached. -/
def dc_q_exec (dc : DC) (usb : UsbOutcome) : DC × DCErr :=
  if dc.qerror ≠ DCErr.ok then (dc_q_clear dc, dc.qerror)
  else if dc.count = 0 then (dc, DCErr.ok)
  else
    let dcw := { dc with wire := dc.wire ++ [txPacket dc] }
    match usb with
    | UsbOutcome.writeFail => (dcw, DCErr.ioErr)
    | UsbOutcome.readFail => (dcw, DCErr.ioErr)
    | UsbOutcome.badFrame => (dcw, DCErr.protocol)
    | UsbOutcome.okResp status => (dc_q_clear dcw, dc_decode_status status)

/-- Embeds `dc_q_raw_rd` (`transport.c:259`): flush if either budget is short
(latching any error), then append a 1-byte read record and a response
slot.  The budget decrements follow the C `uint32_t` arithmetic. -/
def dc_q_raw_rd (dc : DC) (usb : UsbOutcome) (req : Nat) (slot : Nat) : DC :=
  let st : DC × Bool :=
    if dc.txavail < 1 ∨ dc.rxavail < 4 then
      let p := dc_q_exec dc usb
      ({ p.1 with qerror := p.2 }, p.2 ≠ DCErr.ok)
    else (dc, false)
  if st.2 then st.1
  else
    { st.1 with
      txrecs := st.1.txrecs ++ [[req]]
      rxlist := st.1.rxlist ++ [slot]
      count := (st.1.count + 1) % 256
      txavail := sub32 st.1.txavail 1
      rxavail := sub32 st.1.rxavail 4 }

/-- Embeds `dc_q_raw_wr` (`transport.c:276`): flush if fewer than 5 tx bytes
remain (latching any error), then append the 5-byte write record. -/
def dc_q_raw_wr (dc : DC) (usb : UsbOutcome) (req : Nat) (val : Nat) : DC :=
  let st : DC × Bool :=
    if dc.txavail < 5 then
      let p := dc_q_exec dc usb
      ({ p.1 with qerror := p.2 }, p.2 ≠ DCErr.ok)
    else (dc, false)
  if st.2 then st.1
  else
    { st.1 with
      txrecs := st.1.txrecs ++ [req :: le32 val]
      count := (st.1.count + 1) % 256
      txavail := sub32 st.1.txavail 5 }

/-- The `select` value `dc_q_dp_sel` computes at `transport.c:304`:
`(dc->dp_select & mask) | addr` with `mask = DP_SELECT_DPBANK(0xF)` and
`addr = DP_SELECT_DPBANK(dpaddr >> 4)`. -/
def dp_sel_select_code (dpsel dpaddr : Nat) : Nat :=
  (dpsel &&& DP_SELECT_DPBANK 0xF) ||| DP_SELECT_DPBANK (dpaddr >>> 4)

/-- The `select` value §4.F of the spec prescribes for a DP access to a
register-4 variant: keep the bits of `dp_select` outside the DPBANK
field and replace the DPBANK field, `(dp_select & ~DPBANK_mask) |
DPBANK(dpaddr >> 4)`. -/
def dp_sel_select_spec (dpsel dpaddr : Nat) : Nat :=
  (dpsel &&& 0xFFFFFFF0) ||| DP_SELECT_DPBANK (dpaddr >>> 4)

/-- Embeds `dc_q_dp_sel` (`transport.c:292`). -/
def dc_q_dp_sel (dc : DC) (usb : UsbOutcome) (dpaddr : Nat) : DC :=
  if dpaddr &&& 0xFFFFFF03 ≠ 0 then { dc with qerror := DCErr.failed }
  else if dpaddr &&& 0xF ≠ 0x4 then dc
  else
    let select := dp_sel_select_code dc.dp_select dpaddr
    if select ≠ dc.dp_select_cache then
      dc_q_raw_wr { dc with dp_select_cache := select } usb
        (XFER_DP ||| XFER_WR ||| DP_SELECT) select
    else dc

/-- The `select` value `dc_q_ap_sel` computes at `transport.c:323`. -/
def ap_sel_select (apaddr : Nat) : Nat :=
  DP_SELECT_AP ((apaddr &&& 0xFF00) <<< 16) ||| DP_SELECT_APBANK (apaddr >>> 4)

/-- Embeds `dc_q_ap_sel` (`transport.c:314`). -/
def dc_q_ap_sel (dc : DC) (usb : UsbOutcome) (apaddr : Nat) : DC :=
  if apaddr &&& 0xFFFF0003 ≠ 0 then { dc with qerror := DCErr.failed }
  else
    let select := ap_sel_select apaddr
    if select ≠ dc.dp_select_cache then
      dc_q_raw_wr { dc with dp_select_cache := select } usb
        (XFER_DP ||| XFER_WR ||| DP_SELECT) select
    else dc

/-- Embeds `dc_q_dp_rd` (`transport.c:334`). -/
def dc_q_dp_rd (dc : DC) (usb : UsbOutcome) (dpaddr slot : Nat) : DC :=
  if dc.qerror ≠ DCErr.ok then dc
  else
    dc_q_raw_rd (dc_q_dp_sel dc usb dpaddr) usb
      (XFER_DP ||| XFER_RD ||| (dpaddr &&& 0x0C)) slot

/-- Embeds `dc_q_dp_wr` (`transport.c:340`). -/
def dc_q_dp_wr (dc : DC) (usb : UsbOutcome) (dpaddr val : Nat) : DC :=
  if dc.qerror ≠ DCErr.ok then dc
  else
    dc_q_raw_wr (dc_q_dp_sel dc usb dpaddr) usb
      (XFER_DP ||| XFER_WR ||| (dpaddr &&& 0x0C)) val

/-- Embeds `dc_q_ap_rd` (`transport.c:346`). -/
def dc_q_ap_rd (dc : DC) (usb : UsbOutcome) (apaddr slot : Nat) : DC :=
  if dc.qerror ≠ DCErr.ok then dc
  else
    dc_q_raw_rd (dc_q_ap_sel dc usb apaddr) usb
      (XFER_AP ||| XFER_RD ||| (apaddr &&& 0x0C)) slot

/-- Embeds `dc_q_ap_wr` (`transport.c:352`). -/
def dc_q_ap_wr (dc : DC) (usb : UsbOutcome) (apaddr val : Nat) : DC :=
  if dc.qerror ≠ DCErr.ok then dc
  else
    dc_q_raw_wr (dc_q_ap_sel dc usb apaddr) usb
      (XFER_AP ||| XFER_WR ||| (apaddr &&& 0x0C)) val

/-- Embeds `dc_q_set_mask` (`transport.c:358`). -/
def dc_q_set_mask (dc : DC) (usb : UsbOutcome) (mask : Nat) : DC :=
  if dc.qerror ≠ DCErr.ok then dc
  else if dc.cfg_mask = mask then dc
  else dc_q_raw_wr { dc with cfg_mask := mask } usb (XFER_WR ||| XFER_MatchMask) mask

/-- Embeds `dc_q_ap_match` (`transport.c:370`). -/
def dc_q_ap_match (dc : DC) (usb : UsbOutcome) (apaddr val : Nat) : DC :=
  if dc.qerror ≠ DCErr.ok then dc
  else
    dc_q_raw_wr (dc_q_ap_sel dc usb apaddr) usb
      (XFER_AP ||| XFER_RD ||| XFER_ValueMatch ||| (apaddr &&& 0x0C)) val

/-- Embeds `dc_q_dp_match` (`transport.c:376`): note that it adjusts `SELECT`
through `dc_q_ap_sel`, not `dc_q_dp_sel`. -/
def dc_q_dp_match (dc : DC) (usb : UsbOutcome) (apaddr val : Nat) : DC :=
  if dc.qerror ≠ DCErr.ok then dc
  else
    dc_q_raw_wr (dc_q_ap_sel dc usb apaddr) usb
      (XFER_DP ||| XFER_RD ||| XFER_ValueMatch ||| (apaddr &&& 0x0C)) val

/-- Record a single-command `usb_write` (the byte strings built by
`dap_connect`, `dap_swd_configure`, `dap_xfer_config`, `dap_cmd`). -/
def dap_cmd_send (dc : DC) (bytes : List Nat) : DC :=
  { dc with wire := dc.wire ++ [bytes] }

/-- Embeds `dap_connect` (`transport.c:130`); `r` is the outcome of the
`dap_cmd_std` round trip. -/
def dap_connect (dc : DC) (r : DCErr) : DC × DCErr :=
  (dap_cmd_send dc [DAP_Connect, PORT_SWD], r)

/-- Embeds `dap_swd_configure` (`transport.c:135`). -/
def dap_swd_configure (dc : DC) (cfg : Nat) (r : DCErr) : DC × DCErr :=
  (dap_cmd_send dc [DAP_SWD_Configure, cfg], r)

/-- Embeds `dap_xfer_config` (`transport.c:140`): clamp, elide if unchanged from
the mirrors, cache the new values, then send `DAP_TransferConfigure`. -/
def dap_xfer_config (dc : DC) (r : DCErr) (idle wt mtch : Nat) : DC × DCErr :=
  let idle := min idle 255
  let wt := min wt 65535
  let mtch := min mtch 65535
  if dc.cfg_idle = idle ∧ dc.cfg_wait = wt ∧ dc.cfg_match = mtch then (dc, DCErr.ok)
  else
    let dc := { dc with cfg_idle := idle, cfg_wait := wt, cfg_match := mtch }
    (dap_cmd_send dc
      [DAP_TransferConfigure, idle, wt &&& 0xFF, (wt >>> 8) &&& 0xFF,
        mtch &&& 0xFF, (mtch >>> 8) &&& 0xFF], r)

/-- Embeds `dc_set_match_retry` (`transport.c:365`): the `dap_xfer_config`
result is discarded. -/
def dc_set_match_retry (dc : DC) (r : DCErr) (num : Nat) : DC :=
  if dc.qerror ≠ DCErr.ok then dc
  else (dap_xfer_config dc r dc.cfg_idle dc.cfg_wait num).1

/-- The 54-byte `attach_cmd` template (`transport.c:415`), byte for byte. -/
def attach_cmd : List Nat :=
  [DAP_SWD_Sequence, 5,
   0x00, 0xFF, 0xFF, 0xFF, 0xFF, 0xFF, 0xFF, 0xFF, 0xFF,
   0x00, 0x9E, 0xE7, 0xFF, 0xFF, 0x92, 0xF3, 0x09, 0x62,
   0x00, 0x95, 0x2D, 0x85, 0x86, 0xE9, 0xAF, 0xDD, 0xE3,
   0x00, 0xA2, 0x0E, 0xBC, 0x19, 0xA0, 0xF1, 0xFF, 0xFF,
   0x30, 0xFF, 0xFF, 0xFF, 0xFF, 0xFF, 0x0F,
   0x08, 0x99,
   0x85,
   0x28, 0x00, 0x00, 0x00, 0x00, 0x00]

/-- Embeds `__builtin_parity` on the low 32 bits: 1 when the popcount is odd. -/
def parity32 (x : Nat) : Nat :=
  (((List.range 32).map fun i => (x >>> i) &&& 1).sum) % 2

/-- The patched multidrop sequence built by `dc_attach`
(`transport.c:444`): `cmd[1] = 8`, `memcpy(cmd + 49, &tgt, 4)` in little
endian, `cmd[53] = __builtin_parity(tgt)`. -/
def attach_multidrop_cmd (tgt : Nat) : List Nat :=
  ((((((attach_cmd.set 1 8).set 49 (tgt &&& 0xFF)).set 50 ((tgt >>> 8) &&& 0xFF)).set
      51 ((tgt >>> 16) &&& 0xFF)).set 52 ((tgt >>> 24) &&& 0xFF)).set 53 (parity32 tgt))

/-- The byte string `dc_attach` transmits as its `DAP_SWD_Sequence`
command: the patched 54 bytes when `DC_MULTIDROP` is set, else the first
45 bytes of the template as-is (`transport.c:440`). -/
def attachSeqBytes (flags tgt : Nat) : List Nat :=
  if flags &&& DC_MULTIDROP ≠ 0 then attach_multidrop_cmd tgt else attach_cmd.take 45

/-- Embeds `dc_attach` (`transport.c:437`): send the sequence (result ignored),
reinitialise the queue, queue a bare `DP.IDR` read and execute. -/
def dc_attach (dc : DC) (flags tgt : Nat) (usb : UsbOutcome) : DC × DCErr :=
  let dc := dap_cmd_send dc (attachSeqBytes flags tgt)
  let dc := dc_q_init dc
  let dc := dc_q_raw_rd dc usb (XFER_DP ||| XFER_RD ||| XFER_00) 0
  dc_q_exec dc usb

/-- Oracle for the probe-configuration steps of `dap_configure`:
`packetCount`/`packetSize` are the values reported by `dap_get_info`
for `DI_Max_Packet_Count`/`DI_Max_Packet_Size` (`none` when the query
fails or returns the wrong length, in which case the defaults stand),
and the three `DCErr` fields are the outcomes of the `Connect`,
`SWD_Configure` and `TransferConfigure` round trips. -/
structure ConfigureEnv where
  packetCount : Option Nat
  packetSize : Option Nat
  connectResult : DCErr
  swdConfigResult : DCErr
  xferConfigResult : DCErr
  deriving DecidableEq, Repr

/-- Embeds `dap_configure` (`transport.c:478`), at the level of context state:
the `Info` enumeration and capability queries only print.  Note that the
results of the final `dap_connect`, `dap_swd_configure` and
`dap_xfer_config` calls are discarded and `DC_OK` is returned. -/
def dap_configure (dc : DC) (env : ConfigureEnv) : DC × DCErr :=
  let dc := { dc with
    cfg_idle := INVALID, cfg_wait := INVALID, cfg_match := INVALID, cfg_mask := INVALID,
    max_packet_count := 1, max_packet_size := 64 }
  let dc := dc_q_clear dc
  let dc : DC := match env.packetCount with
    | some n => { dc with max_packet_count := n }
    | none => dc
  let dc : DC := match env.packetSize with
    | some n => { dc with max_packet_size := n }
    | none => dc
  if dc.max_packet_count < 1 ∨ dc.max_packet_size < 64 then (dc, DCErr.protocol)
  else
    let dc := { dc with dp_select_cache := INVALID }
    let dc := if 1024 < dc.max_packet_size then { dc with max_packet_size := 1024 } else dc
    let dc := (dap_connect dc env.connectResult).1
    let dc := (dap_swd_configure dc CFG_Turnaround_1 env.swdConfigResult).1
    let dc := (dap_xfer_config dc env.xferConfigResult 8 64 0).1
    (dc, DCErr.ok)

/-- The zeroed context `calloc` hands to `dap_configure` in `dc_create`. -/
def zeroDC : DC :=
  { max_packet_count := 0, max_packet_size := 0,
    cfg_idle := 0, cfg_wait := 0, cfg_match := 0, cfg_mask := 0,
    dp_select := 0, dp_select_cache := 0,
    txrecs := [], count := 0, rxlist := [],
    txavail := 0, rxavail := 0, qerror := DCErr.ok, wire := [] }

/-- Embeds `dc_create` (`transport.c:557`): `allocOk` models the `calloc`
result, `usbOk` the `usb_connect` result. -/
def dc_create (allocOk usbOk : Bool) (env : ConfigureEnv) : Except DCErr DC :=
  if ¬allocOk then Except.error DCErr.failed
  else if ¬usbOk then Except.error DCErr.offline
  else
    let p := dap_configure zeroDC env
    if p.2 ≠ DCErr.ok then Except.error p.2 else Except.ok p.1

/-- Whether an `Except` result delivers a context. -/
def deliversContext (e : Except DCErr DC) : Bool :=
  match e with
  | Except.ok _ => true
  | Except.error _ => false

/-- A fresh context with the given packet size whose queue has just been
initialised (the state after `dap_configure` and `dc_q_init`). -/
def mkDC (mps : Nat) : DC :=
  { max_packet_count := 1, max_packet_size := mps,
    cfg_idle := INVALID, cfg_wait := INVALID, cfg_match := INVALID, cfg_mask := INVALID,
    dp_select := 0, dp_select_cache := INVALID,
    txrecs := [], count := 0, rxlist := [],
    txavail := 0, rxavail := 0, qerror := DCErr.ok, wire := [] }

def initDC (mps : Nat) : DC := dc_q_clear (mkDC mps)

/-- One public queue operation together with the USB oracle any flush it
triggers would see. -/
inductive QOp where
  | qInit
  | dpRd (dpaddr slot : Nat) (usb : UsbOutcome)
  | dpWr (dpaddr val : Nat) (usb : UsbOutcome)
  | apRd (apaddr slot : Nat) (usb : UsbOutcome)
  | apWr (apaddr val : Nat) (usb : UsbOutcome)
  | dpMatchOp (apaddr val : Nat) (usb : UsbOutcome)
  | apMatchOp (apaddr val : Nat) (usb : UsbOutcome)
  | setMask (mask : Nat) (usb : UsbOutcome)
  | execOp (usb : UsbOutcome)
  deriving Repr

def stepOp (dc : DC) (op : QOp) : DC :=
  match op with
  | QOp.qInit => dc_q_init dc
  | QOp.dpRd a s u => dc_q_dp_rd dc u a s
  | QOp.dpWr a v u => dc_q_dp_wr dc u a v
  | QOp.apRd a s u => dc_q_ap_rd dc u a s
  | QOp.apWr a v u => dc_q_ap_wr dc u a v
  | QOp.dpMatchOp a v u => dc_q_dp_match dc u a v
  | QOp.apMatchOp a v u => dc_q_ap_match dc u a v
  | QOp.setMask m u => dc_q_set_mask dc u m
  | QOp.execOp u => (dc_q_exec dc u).1

def runOps (dc : DC) (ops : List QOp) : DC := ops.foldl stepOp dc

/-- Number of `MatchMask` write records in the current queue (request
byte `XFER_WR | XFER_MatchMask`; no other enqueued record carries
bit 5). -/
def maskWrites (dc : DC) : Nat :=
  (dc.txrecs.filter fun r => r.head? == some (XFER_WR ||| XFER_MatchMask)).length

/-- Number of `DAP_TransferConfigure` commands handed to `usb_write`. -/
def xcfgSends (dc : DC) : Nat :=
  (dc.wire.filter fun p => p.head? == some DAP_TransferConfigure).length

/-- The empty reinitialised queue state the spec's §8 invariant describes:
cursor just past the 3-byte header, no queued requests, no response
pointers, both budgets at `max_packet_size - 3`. -/
def qEmptyInit (dc : DC) : Prop :=
  dc.txrecs = [] ∧ dc.count = 0 ∧ dc.rxlist = [] ∧
    dc.txavail = dc.max_packet_size - 3 ∧ dc.rxavail = dc.max_packet_size - 3

/-- Trace of 255 DP reads of register 0 followed by 2 DP writes of register 0:
with `max_packet_size = 1024` every enqueue finds its byte budgets
sufficient, so no flush ever happens and 257 requests accumulate in one
packet, wrapping the count byte. -/
def c4ops : List QOp :=
  List.replicate 255 (QOp.dpRd 0 0 (UsbOutcome.okResp 1)) ++
    List.replicate 2 (QOp.dpWr 0 0 (UsbOutcome.okResp 1))

/-- Trace of 255 DP reads, one DP write (wrapping the count byte to 0), then two
more DP reads: the first finds `rxavail = 1 < 4`, but the flush it
triggers is a no-op because `txbuf[2] == 0`, so it appends anyway,
driving `rxavail` below zero (wrapping) and `rxnext` past the end of the
256-entry `rxptr` array. -/
def c10ops : List QOp :=
  List.replicate 255 (QOp.dpRd 0 0 (UsbOutcome.okResp 1)) ++
    [QOp.dpWr 0 0 (UsbOutcome.okResp 1),
      QOp.dpRd 0 0 (UsbOutcome.okResp 1),
      QOp.dpRd 0 0 (UsbOutcome.okResp 1)]

/-- Closed form of the queue state after `n ≤ 255` DP reads of register 0
on a fresh `max_packet_size = 1024` context. -/
def readsState (n : Nat) : DC :=
  { max_packet_count := 1, max_packet_size := 1024,
    cfg_idle := INVALID, cfg_wait := INVALID, cfg_match := INVALID, cfg_mask := INVALID,
    dp_select := 0, dp_select_cache := INVALID,
    txrecs := List.replicate n [2], count := n, rxlist := List.replicate n 0,
    txavail := 1021 - n, rxavail := 1021 - 4 * n, qerror := DCErr.ok, wire := [] }

/-- The state `c4ops` reaches: 257 request records, count byte wrapped
to 1, no packet ever transmitted. -/
def c4Final : DC :=
  { max_packet_count := 1, max_packet_size := 1024,
    cfg_idle := INVALID, cfg_wait := INVALID, cfg_match := INVALID, cfg_mask := INVALID,
    dp_select := 0, dp_select_cache := INVALID,
    txrecs := (List.replicate 255 [2] ++ [[0, 0, 0, 0, 0]]) ++ [[0, 0, 0, 0, 0]],
    count := 1, rxlist := List.replicate 255 0,
    txavail := 756, rxavail := 1, qerror := DCErr.ok, wire := [] }

/-- The state `c10ops` reaches: 257 response slots (past the 256-entry
`rxptr` array) and an `rxavail` budget that has wrapped below zero. -/
def c10Final : DC :=
  { max_packet_count := 1, max_packet_size := 1024,
    cfg_idle := INVALID, cfg_wait := INVALID, cfg_match := INVALID, cfg_mask := INVALID,
    dp_select := 0, dp_select_cache := INVALID,
    txrecs := ((List.replicate 255 [2] ++ [[0, 0, 0, 0, 0]]) ++ [[2]]) ++ [[2]],
    count := 2, rxlist := (List.replicate 255 0 ++ [0]) ++ [0],
    txavail := 759, rxavail := 4294967289, qerror := DCErr.ok, wire := [] }

/-- A probe whose packet-limit queries succeed with the minimum legal
values but whose `Connect`, `SWD_Configure` and `TransferConfigure`
commands all fail. -/
def envConnFail : ConfigureEnv :=
  { packetCount := some 1, packetSize := some 64,
    connectResult := DCErr.ioErr, swdConfigResult := DCErr.remote,
    xferConfigResult := DCErr.ioErr }

/-! ## Helper lemmas -/

theorem dc_q_exec_latched (dc : DC) (usb : UsbOutcome) (h : dc.qerror ≠ DCErr.ok) :
    dc_q_exec dc usb = (dc_q_clear dc, dc.qerror) := by
  simp [dc_q_exec, h]

theorem dc_q_raw_rd_append (dc : DC) (usb : UsbOutcome) (req slot : Nat)
    (h1 : 1 ≤ dc.txavail) (h4 : 4 ≤ dc.rxavail) :
    dc_q_raw_rd dc usb req slot =
      { dc with
        txrecs := dc.txrecs ++ [[req]]
        rxlist := dc.rxlist ++ [slot]
        count := (dc.count + 1) % 256
        txavail := sub32 dc.txavail 1
        rxavail := sub32 dc.rxavail 4 } := by
  have ht : ¬ dc.txavail = 0 := by omega
  have hr : ¬ dc.rxavail < 4 := by omega
  simp [dc_q_raw_rd, ht, hr]

theorem dc_q_raw_wr_append (dc : DC) (usb : UsbOutcome) (req val : Nat)
    (h5 : 5 ≤ dc.txavail) :
    dc_q_raw_wr dc usb req val =
      { dc with
        txrecs := dc.txrecs ++ [req :: le32 val]
        count := (dc.count + 1) % 256
        txavail := sub32 dc.txavail 5 } := by
  have h : ¬(dc.txavail < 5) := by omega
  simp [dc_q_raw_wr, h]

theorem dc_q_dp_sel_invalid (dc : DC) (usb : UsbOutcome) (dpaddr : Nat)
    (h : dpaddr &&& 0xFFFFFF03 ≠ 0) :
    dc_q_dp_sel dc usb dpaddr = { dc with qerror := DCErr.failed } := by
  simp [dc_q_dp_sel, h]

theorem sub32_small (a b : Nat) (hb : b ≤ a) (ha : a < W32) : sub32 a b = a - b := by
  unfold sub32 W32 at *
  have h1 : a + (4294967296 - b) = 4294967296 + (a - b) := by omega
  rw [h1, Nat.add_mod_left, Nat.mod_eq_of_lt (by omega)]

theorem runOps_append (dc : DC) (l1 l2 : List QOp) :
    runOps dc (l1 ++ l2) = runOps (runOps dc l1) l2 := by
  simp [runOps, List.foldl_append]

theorem dc_q_dp_sel_zero (dc : DC) (usb : UsbOutcome) :
    dc_q_dp_sel dc usb 0 = dc := by
  simp [dc_q_dp_sel]

/-- A DP read of register 0 when both budgets suffice: append the 1-byte
record and the response slot. -/
theorem step_dpRd0 (dc : DC) (u : UsbOutcome) (slot : Nat)
    (hq : dc.qerror = DCErr.ok) (h1 : 1 ≤ dc.txavail) (h4 : 4 ≤ dc.rxavail) :
    stepOp dc (QOp.dpRd 0 slot u) =
      { dc with
        txrecs := dc.txrecs ++ [[2]]
        rxlist := dc.rxlist ++ [slot]
        count := (dc.count + 1) % 256
        txavail := sub32 dc.txavail 1
        rxavail := sub32 dc.rxavail 4 } := by
  show dc_q_dp_rd dc u 0 slot = _
  rw [dc_q_dp_rd, if_neg (by simp [hq]), dc_q_dp_sel_zero,
    dc_q_raw_rd_append dc u _ slot h1 h4]
  have hreq : XFER_DP ||| XFER_RD ||| (0 &&& 0x0C) = 2 := by decide
  rw [hreq]

theorem initDC_1024_eq : initDC 1024 = readsState 0 := by decide

/-- Closed form after `n ≤ 255` DP reads of register 0 from a fresh
`max_packet_size = 1024` context: no flush occurs. -/
theorem reads_closed (n : Nat) (hn : n ≤ 255) :
    runOps (initDC 1024) (List.replicate n (QOp.dpRd 0 0 (UsbOutcome.okResp 1))) =
      readsState n := by
  induction n with
  | zero => simpa [runOps] using initDC_1024_eq
  | succ k ih =>
    rw [List.replicate_succ', runOps_append, ih (by omega)]
    show stepOp (readsState k) (QOp.dpRd 0 0 (UsbOutcome.okResp 1)) = readsState (k + 1)
    rw [step_dpRd0 (readsState k) _ 0 rfl (by simp [readsState]; omega)
      (by simp [readsState]; omega)]
    have e1 : sub32 (1021 - k) 1 = 1021 - (k + 1) := by
      rw [sub32_small _ _ (by omega) (by unfold W32; omega)]; omega
    have e2 : sub32 (1021 - 4 * k) 4 = 1021 - 4 * (k + 1) := by
      rw [sub32_small _ _ (by omega) (by unfold W32; omega)]; omega
    have e3 : (k + 1) % 256 = k + 1 := Nat.mod_eq_of_lt (by omega)
    simp [readsState, e1, e2, e3, List.replicate_succ']

theorem dc_q_ap_sel_invalid (dc : DC) (usb : UsbOutcome) (apaddr : Nat)
    (h : apaddr &&& 0xFFFF0003 ≠ 0) :
    dc_q_ap_sel dc usb apaddr = { dc with qerror := DCErr.failed } := by
  simp [dc_q_ap_sel, h]

/-! ## C1 -/

/-- C1, counterexample.  Enqueueing a DP read at the invalid DP address
`0x01` on a fresh queue does not behave as the claim states: `qerror` is
set to `Failed` (`DC_ERR_FAILED`), not `InvalidArg`, and the operation is
not dropped — the count byte `tx_buf[2]` becomes 1, `rx_ptrs` gains an
entry, and `tx_next` advances to offset 4. -/
theorem C1_counterexample :
    (dc_q_dp_rd (initDC 64) (UsbOutcome.okResp 1) 0x01 0).qerror ≠ DCErr.invalidArg ∧
    (dc_q_dp_rd (initDC 64) (UsbOutcome.okResp 1) 0x01 0).qerror = DCErr.failed ∧
    (dc_q_dp_rd (initDC 64) (UsbOutcome.okResp 1) 0x01 0).count = 1 ∧
    (dc_q_dp_rd (initDC 64) (UsbOutcome.okResp 1) 0x01 0).rxlist.length = 1 ∧
    txnext (dc_q_dp_rd (initDC 64) (UsbOutcome.okResp 1) 0x01 0) = 4 := by
  decide

/-- C1, amended.  An enqueue of a DP operation whose address fails
`dpaddr & 0xFFFFFF03 == 0`, or of an AP operation whose address fails
`apaddr & 0xFFFF0003 == 0`, sets `qerror` to `Failed` (`DC_ERR_FAILED`,
not `InvalidArg`) and skips the `DP.SELECT` adjustment, but still
appends the raw transfer record: `tx_next` advances by the record size,
`rx_ptrs` gains an entry for reads, and the count byte is incremented.
The record is never transmitted: the next `dc_q_exec` returns the
latched error, clears the queue, and produces no USB traffic. -/
theorem C1_amended (dc : DC) (usb usb2 : UsbOutcome) (dpaddr apaddr slot val : Nat)
    (hq : dc.qerror = DCErr.ok) (htx : 5 ≤ dc.txavail) (hrx : 4 ≤ dc.rxavail)
    (hdp : dpaddr &&& 0xFFFFFF03 ≠ 0) (hap : apaddr &&& 0xFFFF0003 ≠ 0) :
    (dc_q_dp_rd dc usb dpaddr slot =
      { dc with
        qerror := DCErr.failed
        txrecs := dc.txrecs ++ [[XFER_DP ||| XFER_RD ||| (dpaddr &&& 0x0C)]]
        rxlist := dc.rxlist ++ [slot]
        count := (dc.count + 1) % 256
        txavail := sub32 dc.txavail 1
        rxavail := sub32 dc.rxavail 4 }) ∧
    (dc_q_dp_wr dc usb dpaddr val =
      { dc with
        qerror := DCErr.failed
        txrecs := dc.txrecs ++ [(XFER_DP ||| XFER_WR ||| (dpaddr &&& 0x0C)) :: le32 val]
        count := (dc.count + 1) % 256
        txavail := sub32 dc.txavail 5 }) ∧
    (dc_q_ap_rd dc usb apaddr slot =
      { dc with
        qerror := DCErr.failed
        txrecs := dc.txrecs ++ [[XFER_AP ||| XFER_RD ||| (apaddr &&& 0x0C)]]
        rxlist := dc.rxlist ++ [slot]
        count := (dc.count + 1) % 256
        txavail := sub32 dc.txavail 1
        rxavail := sub32 dc.rxavail 4 }) ∧
    (dc_q_ap_wr dc usb apaddr val =
      { dc with
        qerror := DCErr.failed
        txrecs := dc.txrecs ++ [(XFER_AP ||| XFER_WR ||| (apaddr &&& 0x0C)) :: le32 val]
        count := (dc.count + 1) % 256
        txavail := sub32 dc.txavail 5 }) ∧
    ((dc_q_exec (dc_q_dp_rd dc usb dpaddr slot) usb2).2 = DCErr.failed ∧
      (dc_q_exec (dc_q_dp_rd dc usb dpaddr slot) usb2).1.txrecs = [] ∧
      (dc_q_exec (dc_q_dp_rd dc usb dpaddr slot) usb2).1.wire = dc.wire) := by
  have hrd : dc_q_dp_rd dc usb dpaddr slot =
      { dc with
        qerror := DCErr.failed
        txrecs := dc.txrecs ++ [[XFER_DP ||| XFER_RD ||| (dpaddr &&& 0x0C)]]
        rxlist := dc.rxlist ++ [slot]
        count := (dc.count + 1) % 256
        txavail := sub32 dc.txavail 1
        rxavail := sub32 dc.rxavail 4 } := by
    rw [dc_q_dp_rd, if_neg (by simp [hq]), dc_q_dp_sel_invalid dc usb dpaddr hdp,
      dc_q_raw_rd_append _ usb _ slot (by simpa using by omega) (by simpa using hrx)]
  refine ⟨hrd, ?_, ?_, ?_, ?_⟩
  · rw [dc_q_dp_wr, if_neg (by simp [hq]), dc_q_dp_sel_invalid dc usb dpaddr hdp,
      dc_q_raw_wr_append _ usb _ val (by simpa using htx)]
  · rw [dc_q_ap_rd, if_neg (by simp [hq]), dc_q_ap_sel_invalid dc usb apaddr hap,
      dc_q_raw_rd_append _ usb _ slot (by simpa using by omega) (by simpa using hrx)]
  · rw [dc_q_ap_wr, if_neg (by simp [hq]), dc_q_ap_sel_invalid dc usb apaddr hap,
      dc_q_raw_wr_append _ usb _ val (by simpa using htx)]
  · rw [hrd, dc_q_exec_latched _ usb2 (by simp)]
    simp [dc_q_clear]

/-- C1, witness for the amended theorem at a concrete input. -/
theorem C1_witness :
    (initDC 64).qerror = DCErr.ok ∧ 5 ≤ (initDC 64).txavail ∧
    4 ≤ (initDC 64).rxavail ∧ (0x01 : Nat) &&& 0xFFFFFF03 ≠ 0 ∧
    (0x02 : Nat) &&& 0xFFFF0003 ≠ 0 ∧
    (dc_q_dp_rd (initDC 64) (UsbOutcome.okResp 1) 0x01 9).qerror = DCErr.failed := by
  refine ⟨by decide, by decide, by decide, by decide, by decide, ?_⟩
  rw [(C1_amended (initDC 64) (UsbOutcome.okResp 1) (UsbOutcome.okResp 1) 0x01 0x02 9 0
    (by decide) (by decide) (by decide) (by decide) (by decide)).1]

/-! ## C2 -/

/-- C2, counterexample.  With one read queued and a failing USB write,
`dc_q_exec` returns `Io` but does not leave the queue in the empty
reinitialised state: the request record and count byte survive. -/
theorem C2_counterexample :
    (dc_q_exec (dc_q_raw_rd (initDC 64) (UsbOutcome.okResp 1) 2 0)
        UsbOutcome.writeFail).2 = DCErr.ioErr ∧
    ¬ qEmptyInit (dc_q_exec (dc_q_raw_rd (initDC 64) (UsbOutcome.okResp 1) 2 0)
        UsbOutcome.writeFail).1 ∧
    (dc_q_exec (dc_q_raw_rd (initDC 64) (UsbOutcome.okResp 1) 2 0)
        UsbOutcome.writeFail).1.count = 1 := by
  refine ⟨by decide, ?_, by decide⟩
  intro h
  exact absurd h.2.1 (by decide)

/-- C2, amended.  `dc_q_exec` leaves the queue in the empty
reinitialised state when an error was already latched and whenever a
well-framed response is received (success or decoded SWD error); when
the queue is empty it succeeds without touching it; but on a USB write
failure, a USB read failure, or a framing violation it returns
`Io`/`Protocol` with the queue contents left in place (only the wire
trace of the attempted write is recorded). -/
theorem C2_amended (dc : DC) (usb : UsbOutcome) (s : Nat) :
    (dc.qerror ≠ DCErr.ok →
      dc_q_exec dc usb = (dc_q_clear dc, dc.qerror) ∧ qEmptyInit (dc_q_clear dc)) ∧
    (dc.qerror = DCErr.ok → dc.count = 0 → dc_q_exec dc usb = (dc, DCErr.ok)) ∧
    (dc.qerror = DCErr.ok → dc.count ≠ 0 →
      dc_q_exec dc (UsbOutcome.okResp s) =
        (dc_q_clear { dc with wire := dc.wire ++ [txPacket dc] }, dc_decode_status s) ∧
      qEmptyInit (dc_q_exec dc (UsbOutcome.okResp s)).1) ∧
    (dc.qerror = DCErr.ok → dc.count ≠ 0 →
      dc_q_exec dc UsbOutcome.writeFail =
        ({ dc with wire := dc.wire ++ [txPacket dc] }, DCErr.ioErr)) ∧
    (dc.qerror = DCErr.ok → dc.count ≠ 0 →
      dc_q_exec dc UsbOutcome.readFail =
        ({ dc with wire := dc.wire ++ [txPacket dc] }, DCErr.ioErr)) ∧
    (dc.qerror = DCErr.ok → dc.count ≠ 0 →
      dc_q_exec dc UsbOutcome.badFrame =
        ({ dc with wire := dc.wire ++ [txPacket dc] }, DCErr.protocol)) := by
  refine ⟨fun h => ⟨dc_q_exec_latched dc usb h, ?_⟩, fun h hc => ?_, fun h hc => ⟨?_, ?_⟩,
    fun h hc => ?_, fun h hc => ?_, fun h hc => ?_⟩
  · simp [dc_q_clear, qEmptyInit]
  · simp [dc_q_exec, h, hc]
  · simp [dc_q_exec, h, hc]
  · simp [dc_q_exec, h, hc, dc_q_clear, qEmptyInit]
  · simp [dc_q_exec, h, hc]
  · simp [dc_q_exec, h, hc]
  · simp [dc_q_exec, h, hc]

/-- C2, witness for the amended theorem at a concrete input. -/
theorem C2_witness :
    (initDC 64).qerror = DCErr.ok ∧ (initDC 64).count = 0 ∧
    dc_q_exec (initDC 64) (UsbOutcome.okResp 0) = (initDC 64, DCErr.ok) :=
  ⟨by decide, by decide,
    (C2_amended (initDC 64) (UsbOutcome.okResp 0) 0).2.1 (by decide) (by decide)⟩

/-! ## C3 -/

/-- C3: the code computes `select = (dp_select & DPBANK_mask) | DPBANK(dpaddr >> 4)`
(`transport.c:304` keeps only the DPBANK bits of `dp_select` and ORs the
new bank into them) where the spec prescribes
`select = (dp_select & ~DPBANK_mask) | DPBANK(dpaddr >> 4)`.  With the
configured `dp_select = 0x01000000` (AP 1 selected) and a read of DP
register `0x14` (bank 1, register 4), the code enqueues a `DP.SELECT`
write of `0x00000001`, discarding the AP field, while the spec's value
is `0x01000001`. -/
theorem C3_code_divergence :
    (dc_q_dp_sel { initDC 64 with dp_select := 0x01000000 } (UsbOutcome.okResp 1)
        0x14).txrecs = [(XFER_DP ||| XFER_WR ||| DP_SELECT) :: le32 0x00000001] ∧
    (dc_q_dp_sel { initDC 64 with dp_select := 0x01000000 } (UsbOutcome.okResp 1)
        0x14).dp_select_cache = 0x00000001 ∧
    dp_sel_select_code 0x01000000 0x14 = 0x00000001 ∧
    dp_sel_select_spec 0x01000000 0x14 = 0x01000001 ∧
    dp_sel_select_code 0x01000000 0x14 ≠ dp_sel_select_spec 0x01000000 0x14 := by
  decide

/-! ## C4 -/

/-- C4: there is no 256-request cap and the 257th enqueue does not force
a flush.  With `max_packet_size = 1024`, 255 DP reads followed by 2 DP
writes all find their byte budgets sufficient, so no flush is ever
forced (`wire = []`), 257 request records accumulate in one
`DAP_Transfer` packet, and the one-byte count field `tx_buf[2]` wraps to
`257 % 256 = 1` instead of saturating. -/
theorem C4_count_byte_wraps :
    (runOps (initDC 1024) c4ops).wire = [] ∧
    (runOps (initDC 1024) c4ops).txrecs.length = 257 ∧
    (runOps (initDC 1024) c4ops).count = 1 := by
  have hrun : runOps (initDC 1024) c4ops = c4Final := by
    rw [c4ops, runOps_append, reads_closed 255 (by omega)]
    rfl
  rw [hrun]
  refine ⟨rfl, ?_, rfl⟩
  simp only [c4Final, List.length_append, List.length_replicate]
  rfl

/-! ## C10 -/

/-- C10: the buffer bounds fail at `max_packet_size = 1024`.  After 255
DP reads and one DP write the count byte has wrapped to 0, so the flush
the next read triggers (on `rxavail = 1 < 4`) is a no-op; the read is
appended anyway, `rxavail` wraps below zero to `0xFFFFFFFD`, and with
the guard disarmed the following read drives `rx_ptrs` to 257 entries —
past the 256-entry `rxptr` array — with no flush ever transmitted. -/
theorem C10_bounds_violated :
    (runOps (initDC 1024) c10ops).rxlist.length = 257 ∧
    (runOps (initDC 1024) c10ops).rxavail = 4294967289 ∧
    (runOps (initDC 1024) c10ops).wire = [] := by
  have hrun : runOps (initDC 1024) c10ops = c10Final := by
    rw [c10ops, runOps_append, reads_closed 255 (by omega)]
    rfl
  rw [hrun]
  refine ⟨?_, rfl, rfl⟩
  simp only [c10Final, List.length_append, List.length_replicate]
  rfl

/-! ## C5 -/

/-- C5, counterexample.  A probe that reports the minimum legal packet
limits but fails `Connect(SWD)` (`Io`), `SWD_Configure` (`Remote`) and
`TransferConfigure` (`Io`) still gets `DC_OK` from `dap_configure`, and
`dc_create` yields the context. -/
theorem C5_counterexample :
    envConnFail.connectResult = DCErr.ioErr ∧
    envConnFail.swdConfigResult = DCErr.remote ∧
    envConnFail.xferConfigResult = DCErr.ioErr ∧
    (dap_configure zeroDC envConnFail).2 = DCErr.ok ∧
    deliversContext (dc_create true true envConnFail) = true := by
  decide

/-- C5, amended.  `dc_create` fails only on allocation failure
(`Failed`), on not finding a probe (`Offline`), or when the reported
packet limits violate `max_packet_count ≥ 1` / `max_packet_size ≥ 64`
(`Protocol`).  The results of the final `Connect(SWD)`,
`SWD_Configure(turnaround=1)` and `TransferConfigure(8, 64, 0)` commands
are discarded by `dap_configure`, so failures there never fail
construction. -/
theorem C5_amended (env : ConfigureEnv) (allocOk usbOk : Bool) :
    ((dap_configure zeroDC env).2 =
      if env.packetCount.getD 1 < 1 ∨ env.packetSize.getD 64 < 64 then DCErr.protocol
      else DCErr.ok) ∧
    (deliversContext (dc_create allocOk usbOk env) = true ↔
      (allocOk = true ∧ usbOk = true ∧
        ¬(env.packetCount.getD 1 < 1 ∨ env.packetSize.getD 64 < 64))) := by
  obtain ⟨pc, ps, rc, rs, rx⟩ := env
  have hcfg : (dap_configure zeroDC ⟨pc, ps, rc, rs, rx⟩).2 =
      if pc.getD 1 < 1 ∨ ps.getD 64 < 64 then DCErr.protocol else DCErr.ok := by
    rcases pc with _ | n <;> rcases ps with _ | m <;>
      simp [dap_configure, zeroDC, dc_q_clear, dap_connect, dap_swd_configure,
        dap_xfer_config, dap_cmd_send] <;>
      split_ifs <;> simp_all
  refine ⟨hcfg, ?_⟩
  cases allocOk with
  | false => simp [dc_create, deliversContext]
  | true =>
    cases usbOk with
    | false => simp [dc_create, deliversContext]
    | true =>
      by_cases hbad : pc.getD 1 < 1 ∨ ps.getD 64 < 64
      · have h2 : dc_create true true ⟨pc, ps, rc, rs, rx⟩ =
            Except.error DCErr.protocol := by
          rw [dc_create, if_neg (by simp), if_neg (by simp)]
          show (if (dap_configure zeroDC ⟨pc, ps, rc, rs, rx⟩).2 ≠ DCErr.ok
              then Except.error (dap_configure zeroDC ⟨pc, ps, rc, rs, rx⟩).2
              else Except.ok (dap_configure zeroDC ⟨pc, ps, rc, rs, rx⟩).1) = _
          rw [hcfg, if_pos hbad, if_pos (by decide : DCErr.protocol ≠ DCErr.ok)]
        rw [h2]
        simp only [deliversContext]
        exact ⟨fun hfalse => absurd hfalse (by decide), fun h => absurd hbad h.2.2⟩
      · have h2 : dc_create true true ⟨pc, ps, rc, rs, rx⟩ =
            Except.ok (dap_configure zeroDC ⟨pc, ps, rc, rs, rx⟩).1 := by
          rw [dc_create, if_neg (by simp), if_neg (by simp)]
          show (if (dap_configure zeroDC ⟨pc, ps, rc, rs, rx⟩).2 ≠ DCErr.ok
              then Except.error (dap_configure zeroDC ⟨pc, ps, rc, rs, rx⟩).2
              else Except.ok (dap_configure zeroDC ⟨pc, ps, rc, rs, rx⟩).1) = _
          rw [hcfg, if_neg hbad, if_neg (by decide : ¬(DCErr.ok ≠ DCErr.ok))]
        rw [h2]
        simp only [deliversContext]
        exact ⟨fun _ => ⟨by trivial, by trivial, hbad⟩, fun _ => by trivial⟩

/-- C5, witness: a reported packet count of 0 makes construction fail
with `Protocol`. -/
theorem C5_witness :
    (dap_configure zeroDC
      { packetCount := some 0, packetSize := some 64, connectResult := DCErr.ok,
        swdConfigResult := DCErr.ok, xferConfigResult := DCErr.ok }).2 =
      DCErr.protocol :=
  (C5_amended
    { packetCount := some 0, packetSize := some 64, connectResult := DCErr.ok,
      swdConfigResult := DCErr.ok, xferConfigResult := DCErr.ok } true true).1

/-! ## C6 -/

/-- The `SELECT` value computed by the AP rule always has the DPBANK
field zeroed. -/
theorem ap_sel_select_low4 (apaddr : Nat) :
    ap_sel_select apaddr &&& DP_SELECT_DPBANK 0xF = 0 := by
  have h15 : DP_SELECT_DPBANK 0xF = 15 := rfl
  rw [h15, ap_sel_select, Nat.and_distrib_right]
  have h1 : DP_SELECT_AP ((apaddr &&& 0xFF00) <<< 16) &&& 15 = 0 := by
    rw [DP_SELECT_AP, Nat.and_assoc]
    have : (0xFF000000 : Nat) &&& 15 = 0 := by decide
    rw [this, Nat.and_zero]
  have h2 : DP_SELECT_APBANK (apaddr >>> 4) &&& 15 = 0 := by
    rw [DP_SELECT_APBANK, Nat.shiftLeft_eq,
      show (15 : Nat) = 2 ^ 4 - 1 by norm_num,
      Nat.and_pow_two_sub_one_eq_mod, Nat.mul_mod_left]
  rw [h1, h2]
  decide

/-- C6: `dc_q_dp_match` validates its address with the AP mask (setting
`qerror` — to `Failed` — when `addr & 0xFFFF0003` is nonzero) and
adjusts `DP.SELECT` through `dc_q_ap_sel` (AP and APBANK taken from the
address, DPBANK zeroed) rather than the DP rule, before enqueueing the
5-byte DP read-with-value-match record via `dc_q_raw_wr`. -/
theorem C6_dp_match_uses_ap_rule (dc : DC) (usb : UsbOutcome) (apaddr val : Nat)
    (hq : dc.qerror = DCErr.ok) (htx : 10 ≤ dc.txavail) (hw : dc.txavail < W32) :
    (apaddr &&& 0xFFFF0003 ≠ 0 →
      (dc_q_dp_match dc usb apaddr val).qerror = DCErr.failed) ∧
    (apaddr &&& 0xFFFF0003 = 0 →
      ap_sel_select apaddr &&& DP_SELECT_DPBANK 0xF = 0 ∧
      (ap_sel_select apaddr ≠ dc.dp_select_cache →
        (dc_q_dp_match dc usb apaddr val).txrecs =
          dc.txrecs ++
            [(XFER_DP ||| XFER_WR ||| DP_SELECT) :: le32 (ap_sel_select apaddr),
              (XFER_DP ||| XFER_RD ||| XFER_ValueMatch ||| (apaddr &&& 0x0C)) :: le32 val] ∧
        (dc_q_dp_match dc usb apaddr val).dp_select_cache = ap_sel_select apaddr) ∧
      (ap_sel_select apaddr = dc.dp_select_cache →
        (dc_q_dp_match dc usb apaddr val).txrecs =
          dc.txrecs ++
            [(XFER_DP ||| XFER_RD ||| XFER_ValueMatch ||| (apaddr &&& 0x0C)) :: le32 val])) := by
  have e5 : sub32 dc.txavail 5 = dc.txavail - 5 := sub32_small _ _ (by omega) hw
  refine ⟨fun hbad => ?_, fun hgood => ⟨ap_sel_select_low4 apaddr, fun hne => ?_, fun heq => ?_⟩⟩
  · rw [dc_q_dp_match, if_neg (by simp [hq]), dc_q_ap_sel_invalid dc usb apaddr hbad,
      dc_q_raw_wr_append _ _ _ _ (by simp; omega)]
  · have hsel : dc_q_ap_sel dc usb apaddr =
        dc_q_raw_wr { dc with dp_select_cache := ap_sel_select apaddr } usb
          (XFER_DP ||| XFER_WR ||| DP_SELECT) (ap_sel_select apaddr) := by
      simp [dc_q_ap_sel, hgood, hne]
    have hinner : dc_q_raw_wr { dc with dp_select_cache := ap_sel_select apaddr } usb
        (XFER_DP ||| XFER_WR ||| DP_SELECT) (ap_sel_select apaddr) =
        { dc with
          dp_select_cache := ap_sel_select apaddr
          txrecs := dc.txrecs ++
            [(XFER_DP ||| XFER_WR ||| DP_SELECT) :: le32 (ap_sel_select apaddr)]
          count := (dc.count + 1) % 256
          txavail := sub32 dc.txavail 5 } := by
      rw [dc_q_raw_wr_append _ _ _ _ (by show 5 ≤ dc.txavail; omega)]
    rw [dc_q_dp_match, if_neg (by simp [hq]), hsel, hinner,
      dc_q_raw_wr_append _ _ _ _ (by show 5 ≤ sub32 dc.txavail 5; rw [e5]; omega)]
    constructor
    · simp
    · rfl
  · have hsel : dc_q_ap_sel dc usb apaddr = dc := by
      simp [dc_q_ap_sel, hgood, heq]
    rw [dc_q_dp_match, if_neg (by simp [hq]), hsel,
      dc_q_raw_wr_append _ _ _ _ (by omega)]

/-- C6, witness at a concrete input: AP register `0x04` on a fresh
queue emits a `SELECT` write then the 5-byte match record. -/
theorem C6_witness :
    (0x04 : Nat) &&& 0xFFFF0003 = 0 ∧
    (dc_q_dp_match (initDC 64) (UsbOutcome.okResp 1) 0x04 7).txrecs =
      [] ++
        [(XFER_DP ||| XFER_WR ||| DP_SELECT) :: le32 (ap_sel_select 0x04),
          (XFER_DP ||| XFER_RD ||| XFER_ValueMatch ||| (0x04 &&& 0x0C)) :: le32 7] :=
  ⟨by decide,
    (((C6_dp_match_uses_ap_rule (initDC 64) (UsbOutcome.okResp 1) 0x04 7 (by decide)
      (by decide) (by decide)).2 (by decide)).2.1 (by decide)).1⟩

/-! ## C7 -/

/-- C7: with the multidrop flag, `dc_attach` transmits the 54-byte
`SWD_Sequence` command whose count field (offset 1) is 8, whose bytes
49..52 are the 32-bit target ID in little-endian order, whose byte 53 is
the even parity of the target ID, and whose first 49 bytes otherwise
match the template; without the flag it transmits exactly the first 45
bytes of the template unmodified, with count field 5.  In both cases the
sequence is the first packet `dc_attach` hands to `usb_write` (followed
by the one-read `DAP_Transfer` for `DP.IDR`). -/
theorem C7_attach_bytes (tgt flags : Nat) (usb : UsbOutcome) :
    (attachSeqBytes DC_MULTIDROP tgt).length = 54 ∧
    (attachSeqBytes DC_MULTIDROP tgt)[1]? = some 8 ∧
    ((attachSeqBytes DC_MULTIDROP tgt).drop 49).take 4 = le32 tgt ∧
    (attachSeqBytes DC_MULTIDROP tgt)[53]? = some (parity32 tgt) ∧
    (attachSeqBytes DC_MULTIDROP tgt).take 49 = (attach_cmd.set 1 8).take 49 ∧
    attachSeqBytes 0 tgt = attach_cmd.take 45 ∧
    (attachSeqBytes 0 tgt)[1]? = some 5 ∧
    (attachSeqBytes 0 tgt).length = 45 ∧
    (dc_attach (initDC 64) flags tgt usb).1.wire =
      [attachSeqBytes flags tgt, [DAP_Transfer, 0, 1, 2]] := by
  refine ⟨rfl, rfl, rfl, rfl, rfl, rfl, rfl, rfl, ?_⟩
  cases usb <;> rfl

/-! ## C8 -/

/-- C8: `dc_decode_status` decodes the SWD status byte in this order:
`ProtocolError` set gives `SwdParity` regardless of the rest; otherwise
the ACK field decides (`WAIT` gives `Timeout`, `FAULT` gives `SwdFault`,
all bits set gives `SwdSilent`, any other non-`OK` value gives
`SwdBogus`); with ACK = `OK`, the `ValueMismatch` bit gives `Match`,
else `Ok`. -/
theorem C8_decode_order (n : Nat) :
    (n &&& RSP_ProtocolError ≠ 0 → dc_decode_status n = DCErr.swdParity) ∧
    (n &&& RSP_ProtocolError = 0 → n &&& RSP_ACK_MASK = RSP_ACK_WAIT →
      dc_decode_status n = DCErr.timeout) ∧
    (n &&& RSP_ProtocolError = 0 → n &&& RSP_ACK_MASK = RSP_ACK_FAULT →
      dc_decode_status n = DCErr.swdFault) ∧
    (n &&& RSP_ProtocolError = 0 → n &&& RSP_ACK_MASK = RSP_ACK_MASK →
      dc_decode_status n = DCErr.swdSilent) ∧
    (n &&& RSP_ProtocolError = 0 → n &&& RSP_ACK_MASK ≠ RSP_ACK_OK →
      n &&& RSP_ACK_MASK ≠ RSP_ACK_WAIT → n &&& RSP_ACK_MASK ≠ RSP_ACK_FAULT →
      n &&& RSP_ACK_MASK ≠ RSP_ACK_MASK → dc_decode_status n = DCErr.swdBogus) ∧
    (n &&& RSP_ProtocolError = 0 → n &&& RSP_ACK_MASK = RSP_ACK_OK →
      n &&& RSP_ValueMismatch ≠ 0 → dc_decode_status n = DCErr.matchErr) ∧
    (n &&& RSP_ProtocolError = 0 → n &&& RSP_ACK_MASK = RSP_ACK_OK →
      n &&& RSP_ValueMismatch = 0 → dc_decode_status n = DCErr.ok) := by
  refine ⟨fun hp => ?_, fun hp hw => ?_, fun hp hf => ?_, fun hp hs => ?_,
    fun hp h1 h2 h3 h4 => ?_, fun hp hok hv => ?_, fun hp hok hv => ?_⟩ <;>
    simp only [dc_decode_status]
  · rw [if_pos hp]
  · rw [if_neg (not_not_intro hp), if_neg (by rw [hw]; decide), if_pos hw]
  · rw [if_neg (not_not_intro hp), if_neg (by rw [hf]; decide),
      if_neg (by rw [hf]; decide), if_pos hf]
  · rw [if_neg (not_not_intro hp), if_neg (by rw [hs]; decide),
      if_neg (by rw [hs]; decide), if_neg (by rw [hs]; decide), if_pos hs]
  · rw [if_neg (not_not_intro hp), if_neg h1, if_neg h2, if_neg h3, if_neg h4]
  · rw [if_neg (not_not_intro hp), if_pos hok, if_pos hv]
  · rw [if_neg (not_not_intro hp), if_pos hok, if_neg (not_not_intro hv)]

/-- C8, witness: `0x0A` (parity error and WAIT together) decodes as
`SwdParity` because the parity test comes first; `0x02` decodes as
`Timeout`; `0x11` (ACK OK with ValueMismatch) decodes as `Match`. -/
theorem C8_witness :
    dc_decode_status 0x0A = DCErr.swdParity ∧
    dc_decode_status 0x02 = DCErr.timeout ∧
    dc_decode_status 0x11 = DCErr.matchErr :=
  ⟨(C8_decode_order 0x0A).1 (by decide),
    (C8_decode_order 0x02).2.1 (by decide) (by decide),
    (C8_decode_order 0x11).2.2.2.2.2.1 (by decide) (by decide) (by decide)⟩

/-! ## C9 -/

/-- C9, counterexample.  Right after `dc_q_clear` the mask mirror is
`INVALID = 0xFFFFFFFF`, so calling `dc_q_set_mask` twice with
`m = 0xFFFFFFFF` enqueues zero `MatchMask` writes, not exactly one. -/
theorem C9_counterexample :
    maskWrites (dc_q_set_mask (dc_q_set_mask (initDC 64) (UsbOutcome.okResp 1) INVALID)
      (UsbOutcome.okResp 1) INVALID) ≠ 1 := by
  decide

/-- C9, amended.  Calling `dc_q_set_mask` twice with the same `m`
enqueues exactly one `MatchMask` write when `m` differs from the current
`cfg_mask` mirror, and zero when the mirror already equals `m` (in
particular for `m = INVALID` right after `dc_q_clear`); likewise
`dc_set_match_retry` twice with the same `n` sends exactly one
`TransferConfigure` when the clamped `n` differs from the `cfg_match`
mirror, and zero otherwise.  In all cases at most one probe write is
emitted. -/
theorem C9_mirror_elision (dc : DC) (usb : UsbOutcome) (r1 r2 : DCErr) (m n : Nat)
    (hq : dc.qerror = DCErr.ok) (htx : 5 ≤ dc.txavail)
    (hidle : dc.cfg_idle ≤ 255) (hwait : dc.cfg_wait ≤ 65535) :
    maskWrites (dc_q_set_mask (dc_q_set_mask dc usb m) usb m) =
      maskWrites dc + (if dc.cfg_mask = m then 0 else 1) ∧
    xcfgSends (dc_set_match_retry (dc_set_match_retry dc r1 n) r2 n) =
      xcfgSends dc + (if dc.cfg_match = min n 65535 then 0 else 1) := by
  constructor
  · by_cases hm : dc.cfg_mask = m
    · simp [dc_q_set_mask, hq, hm]
    · have h1 : dc_q_set_mask dc usb m =
          { dc with
            cfg_mask := m
            txrecs := dc.txrecs ++ [(XFER_WR ||| XFER_MatchMask) :: le32 m]
            count := (dc.count + 1) % 256
            txavail := sub32 dc.txavail 5 } := by
        rw [dc_q_set_mask, if_neg (by simp [hq]), if_neg hm,
          dc_q_raw_wr_append _ _ _ _ (by show 5 ≤ dc.txavail; omega)]
      rw [h1, dc_q_set_mask, if_neg (by simp [hq]), if_pos rfl, if_neg hm]
      simp [maskWrites, List.filter_append]
  · by_cases hn : dc.cfg_match = min n 65535
    · have h1 : dap_xfer_config dc r1 dc.cfg_idle dc.cfg_wait n = (dc, DCErr.ok) := by
        rw [dap_xfer_config,
          if_pos ⟨(Nat.min_eq_left hidle).symm, (Nat.min_eq_left hwait).symm, hn⟩]
      have h2 : dc_set_match_retry dc r1 n = dc := by
        rw [dc_set_match_retry, if_neg (by simp [hq]), h1]
      have h3 : dc_set_match_retry dc r2 n = dc := by
        rw [dc_set_match_retry, if_neg (by simp [hq]),
          dap_xfer_config, if_pos ⟨(Nat.min_eq_left hidle).symm,
            (Nat.min_eq_left hwait).symm, hn⟩]
      rw [h2, h3, if_pos hn, Nat.add_zero]
    · have hcond : ¬(dc.cfg_idle = min dc.cfg_idle 255 ∧ dc.cfg_wait = min dc.cfg_wait 65535 ∧
          dc.cfg_match = min n 65535) := by
        intro h
        exact hn h.2.2
      have h1 : dc_set_match_retry dc r1 n =
          { dc with
            cfg_idle := min dc.cfg_idle 255
            cfg_wait := min dc.cfg_wait 65535
            cfg_match := min n 65535
            wire := dc.wire ++
              [[DAP_TransferConfigure, min dc.cfg_idle 255,
                min dc.cfg_wait 65535 &&& 0xFF, (min dc.cfg_wait 65535 >>> 8) &&& 0xFF,
                min n 65535 &&& 0xFF, (min n 65535 >>> 8) &&& 0xFF]] } := by
        rw [dc_set_match_retry, if_neg (by simp [hq]), dap_xfer_config, if_neg hcond]
        rfl
      have h2 : dc_set_match_retry (dc_set_match_retry dc r1 n) r2 n =
          dc_set_match_retry dc r1 n := by
        have hc1 : min dc.cfg_idle 255 = min (min dc.cfg_idle 255) 255 := by
          rw [Nat.min_eq_left (Nat.min_le_right _ _)]
        have hc2 : min dc.cfg_wait 65535 = min (min dc.cfg_wait 65535) 65535 := by
          rw [Nat.min_eq_left (Nat.min_le_right _ _)]
        rw [h1]
        rw [dc_set_match_retry, if_neg (by simp [hq]), dap_xfer_config,
          if_pos ⟨hc1, hc2, rfl⟩]
      rw [h2, h1, if_neg hn]
      simp [xcfgSends, List.filter_append]

/-- C9, witness at a concrete input: on a context with mirrors
`cfg_idle = 8`, `cfg_wait = 64`, `cfg_match = 0` and `cfg_mask` freshly
invalidated, two `dc_q_set_mask 0` calls enqueue exactly one `MatchMask`
write and two `dc_set_match_retry 5` calls send exactly one
`TransferConfigure`. -/
theorem C9_witness :
    maskWrites (dc_q_set_mask (dc_q_set_mask
      { initDC 64 with cfg_idle := 8, cfg_wait := 64, cfg_match := 0 }
      (UsbOutcome.okResp 1) 0) (UsbOutcome.okResp 1) 0) = 1 ∧
    xcfgSends (dc_set_match_retry (dc_set_match_retry
      { initDC 64 with cfg_idle := 8, cfg_wait := 64, cfg_match := 0 }
      DCErr.ok 5) DCErr.ok 5) = 1 :=
  C9_mirror_elision
    { initDC 64 with cfg_idle := 8, cfg_wait := 64, cfg_match := 0 }
    (UsbOutcome.okResp 1) DCErr.ok DCErr.ok 0 5
    (by decide) (by decide) (by decide) (by decide)

end XDebug
